import Mathlib

/-!
Verification development for the giveaway lifecycle engine
(`src/Giveaway.js` and the Manager file): a shallow embedding of the
giveaway record, the Manager's `start`, the Entity's `edit` / `end` /
`reroll` transitions, the eligibility and winner-selection pipeline
(`roll`, `ValidEntry`), and the file-backed persistence contract.

Conventions of the embedding:
* JS numbers that hold timestamps/durations/counts are `Int` (the code
  never relies on float behaviour for them); identifiers are `Nat`.
* `undefined` / absent JS fields are `Option _`; JS truthiness of a
  number is `≠ 0`, of a string is `≠ ""`, of an `Option` is `isSome`
  plus the truthiness of the payload.
* A JS function that may `throw` is `_ → Except Unit _`.
* Promise rejection is `Except` with an explicit error type.
* `Date.now()` is an explicit `now : Int` parameter.
-/

namespace DiscordGiveaways

/-- A platform user as the selection pipeline sees it: an identifier and
the bot flag (`u.id`, `u.bot` in the source). -/
structure User where
  id : Nat
  bot : Bool
deriving DecidableEq, Repr

/-- The persisted view of a giveaway: exactly the fields produced by the
`get data()` projection of `Giveaway.js` (lines 291-324). -/
structure GiveawayData where
  messageID : Option Nat
  channelID : Nat
  guildID : Nat
  startAt : Int
  endAt : Int
  ended : Bool
  winnerCount : Int
  prize : String
  messages : String
  hostedBy : Option String
  embedColor : Option Nat
  embedColorEnd : Option Nat
  botsCanWin : Option Bool
  exemptPermissions : Option (List Nat)
  exemptMembers : Option (Nat → Except Unit Bool)
  reaction : Option String
  rolereq : Option Bool
  roleid : Option (List Nat)
  joinedreq : Option Bool
  joinedtime : Option Int
  agereq : Option Bool
  agetime : Option Int
  messagereq : Option Bool
  messageamount : Option Int
  isdrop : Option Bool
  serverreq : Option Bool
  serverlink : Option (List String)
  serverslist : Option String
  bypassrole : Option (List Nat)

/-- The in-memory Entity state set up by the `Giveaway` constructor
(`Giveaway.js` lines 18-141): the record fields it copies out of
`options`, the retained `options` object itself, and the transient
fetched-message handle (`this.message`, initially `null`). -/
structure GiveawayState where
  prize : String
  startAt : Int
  endAt : Int
  ended : Bool
  channelID : Nat
  messageID : Option Nat
  guildID : Nat
  winnerCount : Int
  hostedBy : Option String
  messages : String
  options : GiveawayData
  message : Option Nat
  rolereq : Option Bool
  roleid : Option (List Nat)
  joinedreq : Option Bool
  joinedtime : Option Int
  agereq : Option Bool
  agetime : Option Int
  messagereq : Option Bool
  messageamount : Option Int
  isdrop : Option Bool
  serverreq : Option Bool
  serverlink : Option (List String)
  serverslist : Option String
  bypassrole : Option (List Nat)

/-- The `Giveaway` constructor (`Giveaway.js` lines 18-141), hydrating an
Entity from a persisted record: copies each field out of `options`,
keeps `options` itself, and starts with no fetched message. -/
def mkGiveaway (options : GiveawayData) : GiveawayState :=
  { prize := options.prize
    startAt := options.startAt
    endAt := options.endAt
    ended := options.ended
    channelID := options.channelID
    messageID := options.messageID
    guildID := options.guildID
    winnerCount := options.winnerCount
    hostedBy := options.hostedBy
    messages := options.messages
    options := options
    message := none
    rolereq := options.rolereq
    roleid := options.roleid
    joinedreq := options.joinedreq
    joinedtime := options.joinedtime
    agereq := options.agereq
    agetime := options.agetime
    messagereq := options.messagereq
    messageamount := options.messageamount
    isdrop := options.isdrop
    serverreq := options.serverreq
    serverlink := options.serverlink
    serverslist := options.serverslist
    bypassrole := options.bypassrole }

namespace Giveaway

/-- The `get data()` projection (`Giveaway.js` lines 291-324): the live
fields for identity/timing/outcome/content, everything else read back
from the retained `options` object. -/
def data (s : GiveawayState) : GiveawayData :=
  { messageID := s.messageID
    channelID := s.channelID
    guildID := s.guildID
    startAt := s.startAt
    endAt := s.endAt
    ended := s.ended
    winnerCount := s.winnerCount
    prize := s.prize
    messages := s.messages
    hostedBy := s.options.hostedBy
    embedColor := s.options.embedColor
    embedColorEnd := s.options.embedColorEnd
    botsCanWin := s.options.botsCanWin
    exemptPermissions := s.options.exemptPermissions
    exemptMembers := s.options.exemptMembers
    reaction := s.options.reaction
    rolereq := s.options.rolereq
    roleid := s.options.roleid
    joinedreq := s.options.joinedreq
    joinedtime := s.options.joinedtime
    agereq := s.options.agereq
    agetime := s.options.agetime
    messagereq := s.options.messagereq
    messageamount := s.options.messageamount
    isdrop := s.options.isdrop
    serverreq := s.options.serverreq
    serverlink := s.options.serverlink
    serverslist := s.options.serverslist
    bypassrole := s.options.bypassrole }

end Giveaway

/-- Model of `GiveawaysManager.getAllGiveaways` (Manager lines 373-404): if the
storage file does not exist, create it holding an empty array and return
the empty list; otherwise return the parsed array.  Result: the loaded
records paired with the storage contents afterwards. -/
def getAllGiveaways (st : Option (List GiveawayData)) :
    List GiveawayData × Option (List GiveawayData) :=
  match st with
  | none => ([], some [])
  | some l => (l, some l)

/-- Hydration performed by `GiveawaysManager._init` (Manager lines
728-732): each raw record is passed through the `Giveaway` constructor. -/
def hydrate (raw : List GiveawayData) : List GiveawayState :=
  raw.map mkGiveaway

/-- Model of `GiveawaysManager.saveGiveaway` / `editGiveaway` / `deleteGiveaway`
(Manager lines 350-436) all rewrite the whole store as
`JSON.stringify(this.giveaways.map((giveaway) => giveaway.data))`. -/
def saveAllStore (giveaways : List GiveawayState) :
    Option (List GiveawayData) :=
  some (giveaways.map Giveaway.data)

/-- A concrete persisted record used by the closed witness theorems. -/
def sampleData : GiveawayData :=
  { messageID := some 7
    channelID := 11
    guildID := 12
    startAt := 1000
    endAt := 2000
    ended := false
    winnerCount := 2
    prize := "a prize"
    messages := "messages"
    hostedBy := none
    embedColor := none
    embedColorEnd := none
    botsCanWin := none
    exemptPermissions := none
    exemptMembers := none
    reaction := none
    rolereq := none
    roleid := none
    joinedreq := none
    joinedtime := none
    agereq := none
    agetime := none
    messagereq := none
    messageamount := none
    isdrop := none
    serverreq := none
    serverlink := none
    serverslist := none
    bypassrole := none }

/-- The caller-supplied options of `GiveawaysManager.start` (Manager
lines 138-191): the fields `start` reads. -/
structure StartOptions where
  time : Int
  prize : String
  winnerCount : Int
  hostedBy : Option String
  messages : Option String
  reaction : Option String
  botsCanWin : Option Bool
  exemptPermissions : Option (List Nat)
  exemptMembers : Option (Nat → Except Unit Bool)
  embedColor : Option Nat
  embedColorEnd : Option Nat
  rolereq : Option Bool
  roleid : Option (List Nat)
  joinedreq : Option Bool
  joinedtime : Option Int
  agereq : Option Bool
  agetime : Option Int
  messagereq : Option Bool
  messageamount : Option Int
  isdrop : Option Bool
  serverreq : Option Bool
  serverlink : Option (List String)
  serverslist : Option String
  bypassrole : Option (List Nat)

/-- The reject reasons of `GiveawaysManager.start`. -/
inductive StartError where
  | notReady
  | invalidChannel
  | invalidTime
  | invalidPrize
  | invalidWinnerCount
deriving DecidableEq, Repr

/-- Stand-in for the `defaultGiveawayMessages` bundle of `Constants.js`
(opaque to this core). -/
def defaultGiveawayMessages : String := "defaultGiveawayMessages"

/-- Model of `GiveawaysManager.start` (Manager lines 138-240): reject while the
manager is not ready; default `messages`; reject an invalid channel; a
falsy or NaN `time`; a falsy `prize`; a falsy or NaN `winnerCount`.
Otherwise construct the record with `startAt = now`,
`endAt = now + time`, `ended = false`, post the announcement and record
its message identifier (`msgId`).  Truthiness of a JS number is `≠ 0`
and of a string `≠ ""`. -/
def start (ready channelOk : Bool) (channelID guildID : Nat) (now : Int)
    (msgId : Nat) (o : StartOptions) : Except StartError GiveawayData :=
  if ¬ ready then .error .notReady
  else if ¬ channelOk then .error .invalidChannel
  else if o.time = 0 then .error .invalidTime
  else if o.prize = "" then .error .invalidPrize
  else if o.winnerCount = 0 then .error .invalidWinnerCount
  else .ok
    { messageID := some msgId
      channelID := channelID
      guildID := guildID
      startAt := now
      endAt := now + o.time
      ended := false
      winnerCount := o.winnerCount
      prize := o.prize
      messages := o.messages.getD defaultGiveawayMessages
      hostedBy := o.hostedBy
      embedColor := o.embedColor
      embedColorEnd := o.embedColorEnd
      botsCanWin := o.botsCanWin
      exemptPermissions := o.exemptPermissions
      exemptMembers := o.exemptMembers
      reaction := o.reaction
      rolereq := o.rolereq
      roleid := o.roleid
      joinedreq := o.joinedreq
      joinedtime := o.joinedtime
      agereq := o.agereq
      agetime := o.agetime
      messagereq := o.messagereq
      messageamount := o.messageamount
      isdrop := o.isdrop
      serverreq := o.serverreq
      serverlink := o.serverlink
      serverslist := o.serverslist
      bypassrole := o.bypassrole }

/-- Whether a `start` result is a produced record (the resolve branch). -/
def isOkStart : Except StartError GiveawayData → Bool
  | .ok _ => true
  | .error _ => false

/-- Projection: `winnerCount` of a produced record (0 on the reject branch). -/
def okWinnerCount : Except StartError GiveawayData → Int
  | .ok g => g.winnerCount
  | .error _ => 0

/-- Projection: `startAt` of a produced record (0 on the reject branch). -/
def okStartAt : Except StartError GiveawayData → Int
  | .ok g => g.startAt
  | .error _ => 0

/-- Projection: `endAt` of a produced record (0 on the reject branch). -/
def okEndAt : Except StartError GiveawayData → Int
  | .ok g => g.endAt
  | .error _ => 0

/-- A `start` options value every claimed validation accepts except that
`winnerCount` is the numeric value `-1`: `time` is positive and numeric,
`prize` non-empty, `winnerCount` numeric (and truthy, so the source's
validation lets it through). -/
def negCountOptions : StartOptions :=
  { time := 100
    prize := "a prize"
    winnerCount := -1
    hostedBy := none
    messages := none
    reaction := none
    botsCanWin := none
    exemptPermissions := none
    exemptMembers := none
    embedColor := none
    embedColorEnd := none
    rolereq := none
    roleid := none
    joinedreq := none
    joinedtime := none
    agereq := none
    agetime := none
    messagereq := none
    messageamount := none
    isdrop := none
    serverreq := none
    serverlink := none
    serverslist := none
    bypassrole := none }

/-- Witness for C1 at a concrete accepted call with `winnerCount = 2`. -/
def posCountOptions : StartOptions :=
  { negCountOptions with winnerCount := 2 }

/-- The self-exclusion predicate `u => u.id !== this.message.client.user.id`
shared verbatim by `ValidEntry` (line 362) and `roll` (line 375). -/
def notSelf (selfId : Nat) : User → Bool := fun u => u.id != selfId

/-- The eligible set of `Giveaway.roll` (`Giveaway.js` lines 366-385): the
reaction users filtered by bot policy (`u.bot === this.botsCanWin`), by
self-exclusion, by guild membership (`guild.member(u.id)`), then the
exemption-predicate deletion pass (the loop over `users.array()` deleting
every user whose resolved member the predicate excludes — on a collection
keyed by unique ids this is a filter), then the exempt-permission filter.
`exempt` is the awaited outcome of the predicate per member id, `hasPerm`
the member permission check. -/
def rollEligible (selfId : Nat) (botsCanWin : Bool) (isMember : Nat → Bool)
    (exempt : Nat → Bool) (perms : List Nat) (hasPerm : Nat → Nat → Bool)
    (reactors : List User) : List User :=
  ((((reactors.filter (fun u => u.bot == botsCanWin)).filter
        (notSelf selfId)).filter
      (fun u => isMember u.id)).filter
    (fun u => ! exempt u.id)).filter
    (fun u => ! perms.any (fun p => hasPerm u.id p))

/-- The discord.js `Collection.random(amount)` draw: `amount` rounds of
splicing a pseudo-randomly indexed element out of the remaining array.
The random indices are supplied as the explicit `picks` sequence; a round
on an exhausted array yields `undefined` (`none`). -/
def sampleIdx {α : Type} : Nat → List Nat → List α → List (Option α)
  | 0, _, _ => []
  | n + 1, picks, arr =>
    arr[picks.headD 0 % arr.length]? ::
      sampleIdx n picks.tail (arr.eraseIdx (picks.headD 0 % arr.length))

/-- Model of `users.random(count).filter(u => u)` (`Giveaway.js` lines 386-387):
the `count` draws with the `undefined` slots dropped. -/
def randomSample {α : Type} (count : Nat) (picks : List Nat) (arr : List α) :
    List α :=
  (sampleIdx count picks arr).filterMap id

/-- Model of `Giveaway.roll` (`Giveaway.js` lines 366-390): the eligible set,
then `.random(count)` with the `undefined` slots filtered away, mapped
back to guild members (modelled by their ids). -/
def roll (selfId : Nat) (botsCanWin : Bool) (isMember : Nat → Bool)
    (exempt : Nat → Bool) (perms : List Nat) (hasPerm : Nat → Nat → Bool)
    (count : Nat) (picks : List Nat) (reactors : List User) : List Nat :=
  (randomSample count picks
    (rollEligible selfId botsCanWin isMember exempt perms hasPerm
      reactors)).map User.id

/-- Witness for C2: three unique reactors, two winners to draw. -/
def reactorsEx : List User := [⟨1, false⟩, ⟨2, false⟩, ⟨3, false⟩]

/-- Model of `Giveaway.ValidEntry` (`Giveaway.js` lines 354-365): the size of the
reaction-user set with only the process's own identity filtered out —
none of the other filters are applied (an absent reaction object yields
the empty collection, counted as zero). -/
def ValidEntry (selfId : Nat) (reactors : List User) : Nat :=
  (reactors.filter (notSelf selfId)).length

/-- Modelled from the spec: `Giveaway.winningChance` is not under `src/`
(only its callers appear: the Manager accessor at lines 251-259 and the
scheduler/`start` embeds).  Section 4.3 of the spec defines it over the
same filtered-candidate computation as selection:
"`winnerCount / max(1, |eligible set|)`, formatted as a percentage-like
ratio"; the numeric ratio is modelled, the formatting dropped. -/
def winningChance (selfId : Nat) (botsCanWin : Bool) (isMember : Nat → Bool)
    (exempt : Nat → Bool) (perms : List Nat) (hasPerm : Nat → Nat → Bool)
    (winnerCount : Int) (reactors : List User) : Rat :=
  (winnerCount : Rat) /
    max 1 ((rollEligible selfId botsCanWin isMember exempt perms hasPerm
      reactors).length : Rat)

/-- The reject reasons shared by the Entity transitions `edit`, `end`
and `reroll`. -/
inductive TransitionError where
  | alreadyEnded
  | channelUnavailable
  | messageNotFound
  | notYetEnded
deriving DecidableEq, Repr

/-- The options of `Giveaway.edit` (`Giveaway.js` lines 397-418);
an absent field is `none`. -/
structure EditOptions where
  newWinnerCount : Option Int
  newPrize : Option String
  addTime : Option Int
  setEndTimestamp : Option Int
deriving DecidableEq, Repr

/-- JS truthiness of a possibly-absent number: present and non-zero
(`undefined` and `0` are falsy). -/
def truthyInt : Option Int → Bool
  | none => false
  | some v => v != 0

/-- JS truthiness of a possibly-absent string: present and non-empty. -/
def truthyStr : Option String → Bool
  | none => false
  | some s => s != ""

/-- The four `if (options.x) this.y = ...` updates of `Giveaway.edit`
(`Giveaway.js` lines 410-413), in source order: `newWinnerCount`,
`newPrize`, `addTime` (a delta on `endAt`), then `setEndTimestamp`
(an absolute override of `endAt`).  Each guard is JS truthiness of the
option value. -/
def applyEdit (g : GiveawayData) (o : EditOptions) : GiveawayData :=
  let g1 := if truthyInt o.newWinnerCount then
    { g with winnerCount := o.newWinnerCount.getD 0 } else g
  let g2 := if truthyStr o.newPrize then
    { g1 with prize := o.newPrize.getD "" } else g1
  let g3 := if truthyInt o.addTime then
    { g2 with endAt := g2.endAt + o.addTime.getD 0 } else g2
  if truthyInt o.setEndTimestamp then
    { g3 with endAt := o.setEndTimestamp.getD 0 } else g3

/-- Model of `Giveaway.edit` (`Giveaway.js` lines 397-418): reject when already
ended, when the channel cannot be resolved, or when the announcement
message cannot be fetched; otherwise apply the updates and persist. -/
def edit (g : GiveawayData) (channelOk fetchable : Bool) (o : EditOptions) :
    Except TransitionError GiveawayData :=
  if g.ended then .error .alreadyEnded
  else if ¬ channelOk then .error .channelUnavailable
  else if ¬ fetchable then .error .messageNotFound
  else .ok (applyEdit g o)

/-- A non-ended record for the edit counterexample, `winnerCount = 5`. -/
def editTarget : GiveawayData :=
  { sampleData with winnerCount := 5, ended := false }

/-- Edit options that carry `newWinnerCount` explicitly present with the
numeric value `0`. -/
def zeroCountEdit : EditOptions :=
  { newWinnerCount := some 0
    newPrize := none
    addTime := none
    setEndTimestamp := none }

/-- Witness for C5 at a concrete accepted edit carrying every kind of
field: a truthy `newWinnerCount`, an absent `newPrize`, a truthy
`addTime` and a truthy `setEndTimestamp`. -/
def mixedEdit : EditOptions :=
  { newWinnerCount := some 3
    newPrize := none
    addTime := some 50
    setEndTimestamp := some 9999 }

/-- Model of `Giveaway.exemptMembers(member)` (`Giveaway.js` lines 205-219): if the
record carries its own predicate, evaluate it inside `try`/`catch` and
return `false` on a thrown error; otherwise, if the Manager's defaults
carry one, evaluate it with **no** `try`/`catch`; otherwise `false`.  A
thrown JS error is `Except.error`. -/
def exemptMembersCheck (own dflt : Option (Nat → Except Unit Bool))
    (member : Nat) : Except Unit Bool :=
  match own with
  | some f =>
    match f member with
    | .ok r => .ok r
    | .error _ => .ok false
  | none =>
    match dflt with
    | some f => f member
    | none => .ok false

/-- Witness for C6 at the always-throwing predicate. -/
def throwingPredicate : Nat → Except Unit Bool := fun _ => Except.error ()

/-- The state `Giveaway.end` can read and write: the target record, the
Manager's in-memory collection, the storage file, whether the hosting
channel resolves, whether the announcement message can be fetched, and
the member draw the selection step would produce. -/
structure EndWorld where
  g : GiveawayData
  collection : List GiveawayData
  storage : Option (List GiveawayData)
  channelOk : Bool
  messageFetchable : Bool
  rollOutcome : List Nat

/-- The mutation `this.ended = true` on a record. -/
def setEnded (d : GiveawayData) : GiveawayData := { d with ended := true }

/-- The aliasing between the Entity and the Manager's collection: the
mutation `this.ended = true` is visible through every collection entry
holding the same message identifier. -/
def endAlias (mid : Option Nat) (d : GiveawayData) : GiveawayData :=
  if d.messageID = mid then setEnded d else d

/-- Model of `Giveaway.end` (`Giveaway.js` lines 424-482) at the state level:
reject if already ended (before any write); reject if the channel cannot
be resolved (before any write); set `ended = true`; fetch the message —
on failure `fetchMessage` (lines 330-347) removes the record from the
Manager's collection by message identifier and persists the pruned
collection (`deleteGiveaway`), and `end` then rejects; on success run
the draw, persist via `editGiveaway` (a full-collection rewrite) and
resolve with the winners. -/
def endStep (w : EndWorld) : Except TransitionError (List Nat) × EndWorld :=
  if w.g.ended then (.error .alreadyEnded, w)
  else if ¬ w.channelOk then (.error .channelUnavailable, w)
  else
    let g2 := setEnded w.g
    let coll := w.collection.map (endAlias w.g.messageID)
    if ¬ w.messageFetchable then
      let coll2 := coll.filter (fun d => d.messageID != w.g.messageID)
      (.error .messageNotFound,
        { w with g := g2, collection := coll2, storage := some coll2 })
    else
      (.ok w.rollOutcome,
        { w with g := g2, collection := coll, storage := some coll })

/-- Witness world for C4: an ended record alongside one other record. -/
def endedWorld : EndWorld :=
  { g := { sampleData with ended := true }
    collection := [{ sampleData with ended := true }, sampleData]
    storage := some [{ sampleData with ended := true }, sampleData]
    channelOk := true
    messageFetchable := true
    rollOutcome := [1] }

/-- Witness world for C10: a live record whose message is gone. -/
def vanishedWorld : EndWorld :=
  { g := sampleData
    collection := [sampleData]
    storage := some [sampleData]
    channelOk := true
    messageFetchable := false
    rollOutcome := [] }

/-- The operations that can touch a giveaway record after creation:
the Entity transitions (`edit`, `end`, `reroll`) and the Manager's
scheduler ticks (`_checkGiveaway`, `_updateGiveaway`,
`updateServerRequirement`, `_updateServerRequirement`, `lastGiveaway`).
Context the operation would observe — channel resolvability, message
fetchability, the remaining time, refreshed requirement text, whether a
final-countdown animation runs to completion — is carried as data. -/
inductive ManagerOp where
  | editOp (channelOk fetchable : Bool) (o : EditOptions)
  | endOp (channelOk fetchable : Bool)
  | checkTick (channelOk fetchable : Bool) (remaining : Int)
  | updateTick (channelOk fetchable : Bool) (remaining : Int)
  | serverRequirementRefresh (channelOk : Bool) (remaining : Int)
      (text : String)
  | serverRequirementTick (channelOk : Bool) (text : String)
  | lastChanceTick (channelOk : Bool) (remaining : Int) (finishes : Bool)
  | rerollOp (channelOk fetchable : Bool)

/-- Each operation's effect on the record's persisted fields.
* `editOp`: `Giveaway.edit` — on a reject the record is untouched.
* `endOp`: the record component of `endStep`.
* `checkTick`: `_checkGiveaway` (Manager lines 660-721) — returns at once
  when `ended`; with no channel returns; at `remainingTime ≤ 0` delegates
  to `end` (which flips `ended`); a failed fetch sets `ended = true` and
  persists; otherwise only the announcement embed is edited.
* `updateTick`: `_updateGiveaway` (Manager lines 443-501), same shape.
* `serverRequirementRefresh`: `updateServerRequirement` (Manager lines
  502-541) — returns when `ended`; rewrites `serverslist` otherwise.
* `serverRequirementTick`: `_updateServerRequirement` (Manager lines
  542-580) — returns when `ended`; rewrites `serverslist`.
* `lastChanceTick`: `lastGiveaway` (Manager lines 581-659) — returns when
  `ended`; at expiry or on a completed final countdown delegates to
  `end`; its own flags (`threeSecondsRemaining`) are transient and not
  part of the persisted record.
* `rerollOp`: `Giveaway.reroll` (`Giveaway.js` lines 489-511) — rejects
  unless `ended`; runs a fresh draw and sends messages but never writes a
  record field. -/
def stepRecord : ManagerOp → GiveawayData → GiveawayData
  | .editOp cOk f o, g =>
    match edit g cOk f o with
    | .ok g2 => g2
    | .error _ => g
  | .endOp cOk f, g =>
    ((endStep
      { g := g, collection := [], storage := none, channelOk := cOk,
        messageFetchable := f, rollOutcome := [] }).2).g
  | .checkTick cOk f rem, g =>
    if g.ended then g
    else if ¬ cOk then g
    else if rem ≤ 0 then setEnded g
    else if ¬ f then setEnded g
    else g
  | .updateTick cOk f rem, g =>
    if g.ended then g
    else if ¬ cOk then g
    else if rem ≤ 0 then setEnded g
    else if ¬ f then setEnded g
    else g
  | .serverRequirementRefresh cOk rem s, g =>
    if g.ended then g
    else if ¬ cOk then g
    else if rem ≤ 0 then setEnded g
    else { g with serverslist := some s }
  | .serverRequirementTick cOk s, g =>
    if g.ended then g
    else if ¬ cOk then g
    else { g with serverslist := some s }
  | .lastChanceTick cOk rem finishes, g =>
    if g.ended then g
    else if ¬ cOk then g
    else if rem ≤ 0 then setEnded g
    else if finishes then setEnded g
    else g
  | .rerollOp _ _, g => g

/-- Witness for C9: an ended record survives a concrete edit attempt
unchanged. -/
def endedData : GiveawayData := { sampleData with ended := true }

theorem data_mkGiveaway (d : GiveawayData) : Giveaway.data (mkGiveaway d) = d := rfl

/-- Claim C8: for every valid prior persisted state, saving the loaded
collection reproduces an equivalent record set field-for-field
(`saveAll(loadAll())` round-trips every persisted field of every
record), and `loadAll` on an absent storage document yields the empty
collection, creating the document. -/
theorem C8_persistence_roundtrip (l : List GiveawayData) :
    saveAllStore (hydrate (getAllGiveaways (some l)).1) = some l ∧
    getAllGiveaways none = ([], some []) := by
  constructor
  · show some ((l.map mkGiveaway).map Giveaway.data) = some l
    rw [List.map_map]
    have h : Giveaway.data ∘ mkGiveaway = id := funext fun d => rfl
    rw [h, List.map_id]
  · rfl

/-- Claim C1, refuted as stated: a start call with positive numeric
`time = 100`, non-empty `prize` and numeric `winnerCount = -1` passes
the source's validation (which only requires `winnerCount` truthy and
not NaN) and produces a record with `winnerCount = -1 < 1`. -/
theorem C1_counterexample :
    isOkStart (start true true 11 12 1000 7 negCountOptions) = true ∧
    okWinnerCount (start true true 11 12 1000 7 negCountOptions) = -1 ∧
    ¬ (1 ≤ okWinnerCount (start true true 11 12 1000 7 negCountOptions)) := by
  refine ⟨rfl, rfl, ?_⟩
  decide

/-- Claim C1 as amended: for every start call that the manager accepts
(ready, valid channel, truthy numeric `time`, non-empty `prize`, truthy
numeric `winnerCount`) the produced record satisfies
`endAt = startAt + time` and `startAt = now` and
`winnerCount = options.winnerCount`; the claimed bound `winnerCount ≥ 1`
holds exactly when the caller passed `winnerCount ≥ 1` (the source never
checks positivity, only truthiness). -/
theorem C1_start_record (ready channelOk : Bool) (channelID guildID : Nat)
    (now : Int) (msgId : Nat) (o : StartOptions)
    (hready : ready = true) (hchan : channelOk = true)
    (htime : 0 < o.time) (hprize : o.prize ≠ "")
    (hcount : o.winnerCount ≠ 0) :
    isOkStart (start ready channelOk channelID guildID now msgId o) = true ∧
    okStartAt (start ready channelOk channelID guildID now msgId o) = now ∧
    okEndAt (start ready channelOk channelID guildID now msgId o) =
      okStartAt (start ready channelOk channelID guildID now msgId o) + o.time ∧
    okWinnerCount (start ready channelOk channelID guildID now msgId o) =
      o.winnerCount ∧
    (1 ≤ o.winnerCount →
      1 ≤ okWinnerCount (start ready channelOk channelID guildID now msgId o)) := by
  have ht : o.time ≠ 0 := by omega
  subst hready hchan
  simp [start, ht, hprize, hcount, isOkStart, okStartAt, okEndAt, okWinnerCount]

theorem C1_start_record_witness :
    ((0 : Int) < posCountOptions.time ∧ posCountOptions.prize ≠ "" ∧
      posCountOptions.winnerCount ≠ 0) ∧
    (isOkStart (start true true 11 12 1000 7 posCountOptions) = true ∧
      okStartAt (start true true 11 12 1000 7 posCountOptions) = 1000 ∧
      okEndAt (start true true 11 12 1000 7 posCountOptions) =
        okStartAt (start true true 11 12 1000 7 posCountOptions) +
          posCountOptions.time ∧
      okWinnerCount (start true true 11 12 1000 7 posCountOptions) =
        posCountOptions.winnerCount ∧
      (1 ≤ posCountOptions.winnerCount →
        1 ≤ okWinnerCount (start true true 11 12 1000 7 posCountOptions))) :=
  ⟨⟨by decide, by decide, by decide⟩,
    C1_start_record true true 11 12 1000 7 posCountOptions rfl rfl
      (by decide) (by decide) (by decide)⟩

theorem sampleIdx_nil {α : Type} (n : Nat) (picks : List Nat) :
    sampleIdx n picks ([] : List α) = List.replicate n none := by
  induction n generalizing picks with
  | zero => rfl
  | succ n ih => simp [sampleIdx, List.replicate, ih]

theorem randomSample_nil {α : Type} (n : Nat) (picks : List Nat) :
    randomSample n picks ([] : List α) = [] := by
  rw [randomSample, sampleIdx_nil]
  induction n with
  | zero => rfl
  | succ n ih => simp [List.replicate]

theorem randomSample_cons_of_lt {α : Type} {arr : List α} (n : Nat)
    (picks : List Nat) (hi : picks.headD 0 % arr.length < arr.length) :
    randomSample (n + 1) picks arr =
      arr[picks.headD 0 % arr.length] ::
        randomSample n picks.tail
          (arr.eraseIdx (picks.headD 0 % arr.length)) := by
  rw [randomSample, sampleIdx, List.getElem?_eq_getElem hi]
  rfl

theorem length_randomSample {α : Type} :
    ∀ (n : Nat) (picks : List Nat) (arr : List α),
      (randomSample n picks arr).length = min n arr.length
  | 0, _, _ => by simp [randomSample, sampleIdx]
  | n + 1, picks, [] => by simp [randomSample_nil]
  | n + 1, picks, a :: as => by
    have hi : picks.headD 0 % (a :: as).length < (a :: as).length :=
      Nat.mod_lt _ (Nat.succ_pos _)
    have hlen :
        ((a :: as).eraseIdx (picks.headD 0 % (a :: as).length)).length =
          as.length := by
      rw [List.length_eraseIdx_of_lt hi]
      rfl
    have ih := length_randomSample n picks.tail
      ((a :: as).eraseIdx (picks.headD 0 % (a :: as).length))
    rw [randomSample_cons_of_lt n picks hi, List.length_cons, ih, hlen]
    simp [Nat.succ_min_succ]

theorem mem_of_mem_randomSample {α : Type} :
    ∀ (n : Nat) (picks : List Nat) (arr : List α) (x : α),
      x ∈ randomSample n picks arr → x ∈ arr
  | 0, _, _, _ => by simp [randomSample, sampleIdx]
  | n + 1, picks, [], x => by simp [randomSample_nil]
  | n + 1, picks, a :: as, x => by
    have hi : picks.headD 0 % (a :: as).length < (a :: as).length :=
      Nat.mod_lt _ (Nat.succ_pos _)
    rw [randomSample_cons_of_lt n picks hi]
    intro hx
    rcases List.mem_cons.mp hx with h | h
    · subst h
      exact List.getElem_mem hi
    · exact (List.eraseIdx_sublist _ _).subset
        (mem_of_mem_randomSample n picks.tail _ x h)

theorem getElem_not_mem_eraseIdx {α : Type} :
    ∀ (arr : List α) (i : Nat) (hi : i < arr.length), arr.Nodup →
      arr[i] ∉ arr.eraseIdx i
  | [], i, hi, _ => by simp at hi
  | a :: as, 0, _, h => by
    simpa using (List.nodup_cons.mp h).1
  | a :: as, i + 1, hi, h => by
    have hi' : i < as.length := Nat.lt_of_succ_lt_succ hi
    simp only [List.getElem_cons_succ, List.eraseIdx_cons_succ, List.mem_cons]
    rintro (hcontra | hcontra)
    · exact (List.nodup_cons.mp h).1 (hcontra ▸ List.getElem_mem hi')
    · exact getElem_not_mem_eraseIdx as i hi' (List.nodup_cons.mp h).2 hcontra

theorem nodup_randomSample {α : Type} :
    ∀ (n : Nat) (picks : List Nat) (arr : List α), arr.Nodup →
      (randomSample n picks arr).Nodup
  | 0, _, _, _ => by simp [randomSample, sampleIdx]
  | n + 1, picks, [], _ => by simp [randomSample_nil]
  | n + 1, picks, a :: as, h => by
    have hi : picks.headD 0 % (a :: as).length < (a :: as).length :=
      Nat.mod_lt _ (Nat.succ_pos _)
    rw [randomSample_cons_of_lt n picks hi]
    refine List.nodup_cons.mpr ⟨?_, nodup_randomSample n picks.tail _
      ((List.eraseIdx_sublist _ _).nodup h)⟩
    intro hmem
    exact getElem_not_mem_eraseIdx _ _ hi h
      (mem_of_mem_randomSample n picks.tail _ _ hmem)

/-- The eligible set is a sublist of the reactors. -/
theorem rollEligible_sublist (selfId : Nat) (botsCanWin : Bool)
    (isMember : Nat → Bool) (exempt : Nat → Bool) (perms : List Nat)
    (hasPerm : Nat → Nat → Bool) (reactors : List User) :
    List.Sublist
      (rollEligible selfId botsCanWin isMember exempt perms hasPerm reactors)
      reactors := by
  unfold rollEligible
  exact (List.filter_sublist _).trans ((List.filter_sublist _).trans
    ((List.filter_sublist _).trans ((List.filter_sublist _).trans
      (List.filter_sublist _))))

/-- Claim C2: for every reactor set (reaction users are keyed by unique
ids) winner selection returns exactly `min winnerCount |eligible|`
members, never more than `winnerCount`, and never the same member twice;
the draw is total, so undersupply cannot error. -/
theorem C2_roll_selection (selfId : Nat) (botsCanWin : Bool)
    (isMember : Nat → Bool) (exempt : Nat → Bool) (perms : List Nat)
    (hasPerm : Nat → Nat → Bool) (count : Nat) (picks : List Nat)
    (reactors : List User) (h : (reactors.map User.id).Nodup) :
    (roll selfId botsCanWin isMember exempt perms hasPerm count picks
        reactors).length =
      min count
        (rollEligible selfId botsCanWin isMember exempt perms hasPerm
          reactors).length ∧
    (roll selfId botsCanWin isMember exempt perms hasPerm count picks
        reactors).length ≤ count ∧
    (roll selfId botsCanWin isMember exempt perms hasPerm count picks
        reactors).Nodup := by
  have hsub := rollEligible_sublist selfId botsCanWin isMember exempt perms
    hasPerm reactors
  have hEmap : ((rollEligible selfId botsCanWin isMember exempt perms hasPerm
      reactors).map User.id).Nodup := (hsub.map User.id).nodup h
  have hEnodup := List.Nodup.of_map User.id hEmap
  have hlen : (roll selfId botsCanWin isMember exempt perms hasPerm count
      picks reactors).length =
        min count (rollEligible selfId botsCanWin isMember exempt perms
          hasPerm reactors).length := by
    rw [roll, List.length_map, length_randomSample]
  refine ⟨hlen, ?_, ?_⟩
  · rw [hlen]
    exact Nat.min_le_left _ _
  · rw [roll]
    refine List.Nodup.map_on ?_
      (nodup_randomSample count picks _ hEnodup)
    intro x hx y hy hxy
    exact List.inj_on_of_nodup_map hEmap
      (mem_of_mem_randomSample _ _ _ _ hx)
      (mem_of_mem_randomSample _ _ _ _ hy) hxy

theorem C2_roll_selection_witness :
    ((reactorsEx.map User.id).Nodup) ∧
    ((roll 0 false (fun _ => true) (fun _ => false) [] (fun _ _ => false) 2
        [1, 0] reactorsEx).length =
      min 2
        (rollEligible 0 false (fun _ => true) (fun _ => false) []
          (fun _ _ => false) reactorsEx).length ∧
    (roll 0 false (fun _ => true) (fun _ => false) [] (fun _ _ => false) 2
        [1, 0] reactorsEx).length ≤ 2 ∧
    (roll 0 false (fun _ => true) (fun _ => false) [] (fun _ _ => false) 2
        [1, 0] reactorsEx).Nodup) :=
  ⟨by decide,
    C2_roll_selection 0 false (fun _ => true) (fun _ => false) []
      (fun _ _ => false) 2 [1, 0] reactorsEx (by decide)⟩

theorem length_filter_filter_le {α : Type} (l : List α) (p q : α → Bool) :
    ((l.filter p).filter q).length ≤ (l.filter q).length := by
  induction l with
  | nil => simp
  | cons a t ih =>
    by_cases hp : p a <;> by_cases hq : q a <;>
      simp only [List.filter_cons, hp, hq, if_true, if_false, ite_true,
        ite_false, List.length_cons]
    · omega
    · exact ih
    · exact Nat.le_succ_of_le ih
    · exact ih

/-- Claim C7: `ValidEntry` counts all reactors except the process's own
identity, applying no bot-policy, membership, exemption or permission
filter, so it always dominates the eligible-set size used by winner
selection. -/
theorem C7_valid_entry_overcount (selfId : Nat) (botsCanWin : Bool)
    (isMember : Nat → Bool) (exempt : Nat → Bool) (perms : List Nat)
    (hasPerm : Nat → Nat → Bool) (reactors : List User) :
    (rollEligible selfId botsCanWin isMember exempt perms hasPerm
        reactors).length ≤ ValidEntry selfId reactors := by
  unfold rollEligible ValidEntry
  refine Nat.le_trans ?_ (length_filter_filter_le reactors
    (fun u => u.bot == botsCanWin) (notSelf selfId))
  exact Nat.le_trans (List.length_filter_le _ _)
    (Nat.le_trans (List.length_filter_le _ _) (List.length_filter_le _ _))

/-- Claim C3, refuted as stated: with one eligible reactor and
`winnerCount = 3`, the spec-modelled ratio is `3 / max 1 1 = 3`, while
the claimed clamp `min 1 (winnerCount / max 1 eligibleCount)` is `1`. -/
theorem C3_counterexample :
    winningChance 0 false (fun _ => true) (fun _ => false) []
        (fun _ _ => false) 3 [⟨1, false⟩] = 3 ∧
    min 1 (((3 : Int) : Rat) /
        max 1 ((rollEligible 0 false (fun _ => true) (fun _ => false) []
          (fun _ _ => false) [⟨1, false⟩]).length : Rat)) = 1 ∧
    (3 : Rat) ≠ 1 := by
  refine ⟨?_, ?_, by norm_num⟩
  · show ((3 : Int) : Rat) / max 1 ((1 : Nat) : Rat) = 3
    norm_num
  · show min 1 (((3 : Int) : Rat) / max 1 ((1 : Nat) : Rat)) = 1
    norm_num

/-- Claim C3 as amended: `winningChance` equals
`winnerCount / max(1, eligibleCount)` (no clamp at 1), where
`eligibleCount` is the size of the very same post-filter eligible set
from which `roll` draws every winner. -/
theorem C3_winning_chance (selfId : Nat) (botsCanWin : Bool)
    (isMember : Nat → Bool) (exempt : Nat → Bool) (perms : List Nat)
    (hasPerm : Nat → Nat → Bool) (wc : Int) (count : Nat)
    (picks : List Nat) (reactors : List User) :
    winningChance selfId botsCanWin isMember exempt perms hasPerm wc
        reactors =
      (wc : Rat) /
        max 1 ((rollEligible selfId botsCanWin isMember exempt perms hasPerm
          reactors).length : Rat) ∧
    roll selfId botsCanWin isMember exempt perms hasPerm count picks
        reactors ⊆
      (rollEligible selfId botsCanWin isMember exempt perms hasPerm
        reactors).map User.id := by
  refine ⟨rfl, ?_⟩
  intro x hx
  rcases List.mem_map.mp hx with ⟨u, hu, rfl⟩
  exact List.mem_map_of_mem User.id (mem_of_mem_randomSample _ _ _ _ hu)

theorem C3_winning_chance_witness :
    winningChance 0 false (fun _ => true) (fun _ => false) []
        (fun _ _ => false) 3 [⟨1, false⟩] =
      ((3 : Int) : Rat) /
        max 1 ((rollEligible 0 false (fun _ => true) (fun _ => false) []
          (fun _ _ => false) [⟨1, false⟩]).length : Rat) ∧
    roll 0 false (fun _ => true) (fun _ => false) [] (fun _ _ => false) 1
        [0] [⟨1, false⟩] ⊆
      (rollEligible 0 false (fun _ => true) (fun _ => false) []
        (fun _ _ => false) [⟨1, false⟩]).map User.id :=
  C3_winning_chance 0 false (fun _ => true) (fun _ => false) []
    (fun _ _ => false) 3 1 [0] [⟨1, false⟩]

/-- Claim C5, refuted as stated: `newWinnerCount` is explicitly present
(with value `0`) in the options, yet the edit succeeds without applying
it — the record keeps `winnerCount = 5` because the source guards each
update with JS truthiness, not presence. -/
theorem C5_counterexample :
    edit editTarget true true zeroCountEdit = Except.ok editTarget ∧
    zeroCountEdit.newWinnerCount = some 0 ∧
    editTarget.winnerCount = 5 := ⟨rfl, rfl, rfl⟩

/-- Claim C5 as amended: on a non-ended, resolvable giveaway, `edit`
applies exactly the option fields that are present with truthy values
(non-zero numbers, non-empty strings) — `newWinnerCount`, `newPrize`,
`addTime` as a delta and then `setEndTimestamp` overriding it — and a
field that is absent, or present but falsy, leaves the corresponding
record field unchanged; every other record field is unchanged (writing
the three touched fields back recovers the original record). -/
theorem C5_edit_fields (g : GiveawayData) (o : EditOptions)
    (h : g.ended = false) :
    edit g true true o = Except.ok (applyEdit g o) ∧
    (applyEdit g o).winnerCount =
      (if truthyInt o.newWinnerCount then o.newWinnerCount.getD 0
        else g.winnerCount) ∧
    (applyEdit g o).prize =
      (if truthyStr o.newPrize then o.newPrize.getD "" else g.prize) ∧
    (applyEdit g o).endAt =
      (if truthyInt o.setEndTimestamp then o.setEndTimestamp.getD 0
        else if truthyInt o.addTime then g.endAt + o.addTime.getD 0
        else g.endAt) ∧
    { applyEdit g o with
        winnerCount := g.winnerCount
        prize := g.prize
        endAt := g.endAt } = g := by
  refine ⟨by simp [edit, h], ?_, ?_, ?_, ?_⟩ <;>
    unfold applyEdit <;>
    rcases htw : truthyInt o.newWinnerCount <;>
    rcases htp : truthyStr o.newPrize <;>
    rcases hta : truthyInt o.addTime <;>
    rcases hts : truthyInt o.setEndTimestamp <;>
    simp [htw, htp, hta, hts]

theorem C5_edit_fields_witness :
    (editTarget.ended = false) ∧
    (edit editTarget true true mixedEdit =
        Except.ok (applyEdit editTarget mixedEdit) ∧
      (applyEdit editTarget mixedEdit).winnerCount =
        (if truthyInt mixedEdit.newWinnerCount then
          mixedEdit.newWinnerCount.getD 0 else editTarget.winnerCount) ∧
      (applyEdit editTarget mixedEdit).prize =
        (if truthyStr mixedEdit.newPrize then mixedEdit.newPrize.getD ""
          else editTarget.prize) ∧
      (applyEdit editTarget mixedEdit).endAt =
        (if truthyInt mixedEdit.setEndTimestamp then
          mixedEdit.setEndTimestamp.getD 0
          else if truthyInt mixedEdit.addTime then
            editTarget.endAt + mixedEdit.addTime.getD 0
          else editTarget.endAt) ∧
      { applyEdit editTarget mixedEdit with
          winnerCount := editTarget.winnerCount
          prize := editTarget.prize
          endAt := editTarget.endAt } = editTarget) :=
  ⟨rfl, C5_edit_fields editTarget mixedEdit rfl⟩

/-- Claim C6, refuted as stated: when the predicate comes from the
Manager's defaults (no record-level predicate) and throws, the failure
is **not** caught — the error propagates instead of yielding `false`. -/
theorem C6_counterexample :
    exemptMembersCheck none (some (fun _ => Except.error ())) 0 =
      Except.error () ∧
    Except.error () ≠ (Except.ok false : Except Unit Bool) :=
  ⟨rfl, fun h => Except.noConfusion h⟩

/-- Claim C6 as amended: a failure of the record-supplied exemption
predicate is caught and the member treated as not exempt (`false`,
fail-open); a failure of the Manager-default predicate, by contrast,
propagates to the caller. -/
theorem C6_exempt_failure (dflt : Option (Nat → Except Unit Bool))
    (g : Nat → Except Unit Bool) (member other : Nat) (e e2 : Unit) :
    (∀ fOwn : Nat → Except Unit Bool, fOwn member = Except.error e →
      exemptMembersCheck (some fOwn) dflt member = Except.ok false) ∧
    (g other = Except.error e2 →
      exemptMembersCheck none (some g) other = Except.error e2) := by
  constructor
  · intro fOwn hf
    simp [exemptMembersCheck, hf]
  · intro hg
    simp [exemptMembersCheck, hg]

theorem C6_exempt_failure_witness :
    (throwingPredicate 0 = Except.error ()) ∧
    (exemptMembersCheck (some throwingPredicate) none 0 = Except.ok false ∧
      exemptMembersCheck none (some throwingPredicate) 0 =
        Except.error ()) :=
  ⟨rfl,
    (C6_exempt_failure none throwingPredicate 0 0 () ()).1
      throwingPredicate rfl,
    (C6_exempt_failure none throwingPredicate 0 0 () ()).2 rfl⟩

/-- Claim C4: calling `end` on an already-ended record rejects with the
already-ended error and leaves every part of the state — the record, the
in-memory collection and the stored collection — exactly as it was. -/
theorem C4_end_already_ended (w : EndWorld) (h : w.g.ended = true) :
    endStep w = (.error .alreadyEnded, w) := by
  simp [endStep, h]

theorem C4_end_already_ended_witness :
    (endedWorld.g.ended = true) ∧
    endStep endedWorld = (.error .alreadyEnded, endedWorld) :=
  ⟨rfl, C4_end_already_ended endedWorld rfl⟩

theorem filter_map_endAlias (mid : Option Nat) (l : List GiveawayData) :
    (l.map (endAlias mid)).filter (fun d => d.messageID != mid) =
      l.filter (fun d => d.messageID != mid) := by
  induction l with
  | nil => rfl
  | cons a t ih =>
    by_cases ha : a.messageID = mid
    · simp [endAlias, setEnded, ha, ih]
    · simp [endAlias, ha, ih]

/-- Claim C10: `end` on a non-ended giveaway whose announcement message
can no longer be fetched rejects, but only after `ended` has been set to
`true` and the record has been pruned from the in-memory collection and
from the persisted store by the fetch step — the failing call is not
atomic. -/
theorem C10_end_fetch_failure (w : EndWorld) (h : w.g.ended = false)
    (hchan : w.channelOk = true) (hfetch : w.messageFetchable = false) :
    endStep w =
      (.error .messageNotFound,
        { w with
            g := setEnded w.g
            collection :=
              (w.collection.map (endAlias w.g.messageID)).filter
                (fun d => d.messageID != w.g.messageID)
            storage := some
              ((w.collection.map (endAlias w.g.messageID)).filter
                (fun d => d.messageID != w.g.messageID)) }) ∧
    (w.collection.map (endAlias w.g.messageID)).filter
        (fun d => d.messageID != w.g.messageID) =
      w.collection.filter (fun d => d.messageID != w.g.messageID) ∧
    (setEnded w.g).ended = true := by
  refine ⟨?_, filter_map_endAlias w.g.messageID w.collection, rfl⟩
  simp [endStep, h, hchan, hfetch]

theorem C10_end_fetch_failure_witness :
    (vanishedWorld.g.ended = false ∧ vanishedWorld.channelOk = true ∧
      vanishedWorld.messageFetchable = false) ∧
    (endStep vanishedWorld =
      (.error .messageNotFound,
        { vanishedWorld with
            g := setEnded vanishedWorld.g
            collection :=
              (vanishedWorld.collection.map
                (endAlias vanishedWorld.g.messageID)).filter
                (fun d => d.messageID != vanishedWorld.g.messageID)
            storage := some
              ((vanishedWorld.collection.map
                (endAlias vanishedWorld.g.messageID)).filter
                (fun d => d.messageID != vanishedWorld.g.messageID)) }) ∧
    (vanishedWorld.collection.map
        (endAlias vanishedWorld.g.messageID)).filter
        (fun d => d.messageID != vanishedWorld.g.messageID) =
      vanishedWorld.collection.filter
        (fun d => d.messageID != vanishedWorld.g.messageID) ∧
    (setEnded vanishedWorld.g).ended = true) :=
  ⟨⟨rfl, rfl, rfl⟩,
    C10_end_fetch_failure vanishedWorld rfl rfl rfl⟩

/-- Claim C9: once `ended` is true, no subsequent operation — edits,
scheduler ticks, requirement refreshes, rerolls — changes any field of
the record (in particular none changes `serverslist` either, which the
claim would still permit), and `ended` never transitions back to
false. -/
theorem C9_ended_frozen (op : ManagerOp) (g : GiveawayData)
    (h : g.ended = true) : stepRecord op g = g := by
  cases op <;> simp [stepRecord, edit, endStep, h]

theorem C9_ended_frozen_witness :
    (endedData.ended = true) ∧
    stepRecord (.editOp true true mixedEdit) endedData = endedData :=
  ⟨rfl, C9_ended_frozen (.editOp true true mixedEdit) endedData rfl⟩

end DiscordGiveaways
